import Mathlib

/-!
Verification of the NanoFetchQL repository (src/nano-ql-client.ts).

The repository is a minimal GraphQL client over the Fetch API.  We give a
shallow embedding of the JavaScript values and operations the client uses
(object literals, property assignment, object spread, truthiness tests,
JSON serialization) and of the class `NanoQLClient` itself, and prove the
specified properties of `execute`, the constructor and the accessors.
-/

namespace NanoFetchQL

/-- A model of the JavaScript runtime values the client manipulates.
`obj` is a plain object given by its ordered own enumerable string-keyed
properties; `headersInst` models a platform `Headers` instance (whose
header entries are NOT own enumerable properties); `token` models an
`AbortSignal` obtained from the `AbortController` with the given identity. -/
inductive JsValue where
  | undefined : JsValue
  | null : JsValue
  | boolean : Bool → JsValue
  | number : Int → JsValue
  | str : String → JsValue
  | arr : List JsValue → JsValue
  | obj : List (String × JsValue) → JsValue
  | headersInst : List (String × String) → JsValue
  | token : Nat → JsValue

/-- A plain JavaScript object: ordered own enumerable string-keyed properties. -/
abbrev JsObj := List (String × JsValue)

/-- JavaScript truthiness: `undefined`, `null`, `false`, `0` and the empty
string are falsy; every object (including arrays, Headers and signals) is
truthy. This is the test performed by `if (variables)` / `if (operationName)`
in `execute` (nano-ql-client.ts lines 27-28). -/
def JsValue.truthy : JsValue → Bool
  | .undefined => false
  | .null => false
  | .boolean b => b
  | .number n => decide (n ≠ 0)
  | .str s => decide (s ≠ "")
  | .arr _ => true
  | .obj _ => true
  | .headersInst _ => true
  | .token _ => true

/-- Property read `o[k]` on a plain object: the value stored under key `k`,
`undefined` when the key is absent. -/
def jsGet (o : JsObj) (k : String) : JsValue :=
  match o.find? (fun p => p.1 = k) with
  | some p => p.2
  | none => .undefined

/-- JavaScript property assignment `o[k] = v` (also the semantics of a later
entry in an object literal): when `k` is already a key its value is replaced
in place, keeping its original position; otherwise the entry is appended. -/
def objSet (o : JsObj) (k : String) (v : JsValue) : JsObj :=
  if o.any (fun p => p.1 = k) then o.map (fun p => if p.1 = k then (k, v) else p)
  else o ++ [(k, v)]

/-- JavaScript object spread `\x7b ...o, ...v \x7d` semantics: spreading a
plain object copies its own enumerable properties in order; spreading an
array copies its index-keyed entries (keys "0", "1", ...); spreading a
`Headers` instance or an `AbortSignal` copies nothing (they have no own
enumerable string-keyed properties); spreading `undefined`, `null`, a
boolean or a number copies nothing. -/
def spreadInto (o : JsObj) (v : JsValue) : JsObj :=
  match v with
  | .obj fields => fields.foldl (fun acc p => objSet acc p.1 p.2) o
  | .arr elems => (elems.enum).foldl (fun acc p => objSet acc (toString p.1) p.2) o
  | _ => o

/-- Optional-chaining property read `o?.k` where `o` may be `undefined`. -/
def optGet (o : Option JsObj) (k : String) : JsValue :=
  match o with
  | none => .undefined
  | some fields => jsGet fields k

/-- Whether a value is the `undefined` value. -/
def JsValue.isUndefined : JsValue → Bool
  | .undefined => true
  | _ => false

/-- Escape of one character inside a JSON string literal, as produced by
`JSON.stringify` (the common control characters; other characters are
emitted verbatim). -/
def jsonEscapeChar (c : Char) : String :=
  if c = '"' then "\\\""
  else if c = '\\' then "\\\\"
  else if c = '\n' then "\\n"
  else if c = '\r' then "\\r"
  else if c = '\t' then "\\t"
  else String.singleton c

/-- JSON escaping of a whole string. -/
def jsonEscape (s : String) : String :=
  String.join (s.toList.map jsonEscapeChar)

/-- A JSON string literal: the escaped text between double quotes. -/
def jsonQuote (s : String) : String :=
  "\"" ++ jsonEscape s ++ "\""

mutual

/-- Model of `JSON.stringify`.  Object properties whose value is `undefined`
are dropped; `undefined` occurring as an array element serializes as
`null`; `Headers` and `AbortSignal` instances have no own enumerable
properties and serialize as the empty object.  (The client only ever
stringifies a plain object, the request payload.) -/
def jsonStr : JsValue → String
  | .undefined => "null"
  | .null => "null"
  | .boolean b => cond b "true" "false"
  | .number n => toString n
  | .str s => jsonQuote s
  | .arr elems => "[" ++ String.intercalate "," (jsonArrItems elems) ++ "]"
  | .obj fields => "\x7b" ++ String.intercalate "," (jsonFieldItems fields) ++ "\x7d"
  | .headersInst _ => "\x7b\x7d"
  | .token _ => "\x7b\x7d"

/-- The serialized items of a JSON array. -/
def jsonArrItems : List JsValue → List String
  | [] => []
  | v :: rest => jsonStr v :: jsonArrItems rest

/-- The serialized `"key":value` items of a JSON object, dropping
properties whose value is `undefined` as `JSON.stringify` does. -/
def jsonFieldItems : List (String × JsValue) → List String
  | [] => []
  | (k, v) :: rest =>
    if v.isUndefined then jsonFieldItems rest
    else (jsonQuote k ++ ":" ++ jsonStr v) :: jsonFieldItems rest

end

/-- Model of the platform `URL` class as the repository uses it: `new
URL(text)` either fails (the text is not a parseable absolute address) or
yields a URL object, which `toString()` renders as normalized text.  A URL
object is represented by that normalized text; `parse` returns it, or
`none` when construction of the URL would fail. -/
structure URLImpl where
  parse : String → Option String

/-- The constructor argument `url: string | URL` of `NanoQLClient`:
either endpoint text, or an already-constructed URL object (represented by
its normalized text). -/
inductive UrlArg where
  | text : String → UrlArg
  | urlObject : String → UrlArg
  deriving DecidableEq, Repr

/-- The client instance: the stored URL (as its normalized text) and the
stored default `RequestInit` options, both fields `readonly` in the source. -/
structure NanoQLClient where
  storedUrl : String
  storedOptions : Option JsObj

/-- The `NanoQLClient` constructor (nano-ql-client.ts lines 14-20): a string
endpoint is parsed with `new URL(url)` — which fails when the text is not a
valid address, in which case no instance is produced — while a URL object is
stored as-is; `defaultOptions` is stored unchanged. -/
def NanoQLClient.construct (impl : URLImpl) (url : UrlArg)
    (defaultOptions : Option JsObj) : Option NanoQLClient :=
  match url with
  | .text s => (impl.parse s).map (fun n => ⟨n, defaultOptions⟩)
  | .urlObject n => some ⟨n, defaultOptions⟩

/-- The `url` getter (nano-ql-client.ts lines 50-52): `this._url.toString()`. -/
def NanoQLClient.url (c : NanoQLClient) : String :=
  c.storedUrl

/-- The `options` getter (nano-ql-client.ts lines 54-56): `this._options`. -/
def NanoQLClient.options (c : NanoQLClient) : Option JsObj :=
  c.storedOptions

/-- A GraphQL `DocumentNode` is an opaque external AST; the client only
passes it to the external serializer `print`.  We model a document by the
behaviour of `print` on it: the canonical text, or `none` when `print`
throws (malformed document). -/
structure DocumentNode where
  printResult : Option String
  deriving DecidableEq, Repr

/-- The argument object of `execute`: a required document, and the
`variables` and `operationName` properties, which are `undefined` when the
caller omits them. -/
structure ExecuteParams where
  document : DocumentNode
  vars : JsValue
  operationName : JsValue

/-- The error raised synchronously when `print(document)` throws: no
request is dispatched. -/
inductive SerializationError where
  | printFailed
  deriving DecidableEq, Repr

/-- One outbound transport operation: the argument pair of a `fetch` call. -/
structure FetchCall where
  url : String
  init : JsObj

/-- The handle returned by `execute`: the pending response (identified by
the dispatched fetch call) and the `abort` capability, which signals the
`AbortController` created for this call (identified by its token). -/
structure ExecuteHandle where
  response : FetchCall
  abortTokenId : Nat

/-- The observable outcome of one `execute` call: the executor state after
the call, the synchronous result (the handle, or the serialization error),
and the list of transport operations the call performed. -/
structure ExecuteOutcome where
  client : NanoQLClient
  result : Except SerializationError ExecuteHandle
  fetchCalls : List FetchCall

/-- The wire payload object (nano-ql-client.ts lines 26-28):
`const body = \x7b query: print(document) \x7d` followed by
`if (variables) body.variables = variables` and
`if (operationName) body.operationName = operationName`. -/
def buildPayload (printed : String) (vars operationName : JsValue) : JsObj :=
  let body : JsObj := [("query", JsValue.str printed)]
  let body := if vars.truthy then objSet body "variables" vars else body
  if operationName.truthy then objSet body "operationName" operationName else body

/-- The `headers` object of the composed request (nano-ql-client.ts lines
34-37): spread of `this.options?.headers` overlaid with the fixed
`Content-Type: application/json` entry. -/
def requestHeaders (options : Option JsObj) : JsObj :=
  objSet (spreadInto [] (optGet options "headers"))
    "Content-Type" (JsValue.str "application/json")

/-- The `RequestInit` object composed for the dispatch (nano-ql-client.ts
lines 31-40): spread of the default options, then `method: 'POST'`, then
the `headers` object, then the serialized payload as `body`, then the
per-call `signal`. -/
def buildRequest (options : Option JsObj) (bodyText : String) (tokenId : Nat) : JsObj :=
  let r := spreadInto [] (match options with
    | none => JsValue.undefined
    | some fields => JsValue.obj fields)
  let r := objSet r "method" (JsValue.str "POST")
  let r := objSet r "headers" (JsValue.obj (requestHeaders options))
  let r := objSet r "body" (JsValue.str bodyText)
  objSet r "signal" (JsValue.token tokenId)

/-- The `execute` method (nano-ql-client.ts lines 22-48).  A fresh
`AbortController` (identified by `freshTokenId`) is created, the document
is serialized — when `print` throws, the call fails synchronously and no
fetch happens — the payload and request objects are composed, and exactly
one `fetch(this.url, request)` is dispatched; the returned handle carries
the pending response and an `abort` closure over this call's controller. -/
def NanoQLClient.execute (c : NanoQLClient) (p : ExecuteParams)
    (freshTokenId : Nat) : ExecuteOutcome :=
  match p.document.printResult with
  | none => ⟨c, .error .printFailed, []⟩
  | some printed =>
    let payload := buildPayload printed p.vars p.operationName
    let request := buildRequest c.options (jsonStr (JsValue.obj payload)) freshTokenId
    let call : FetchCall := ⟨c.url, request⟩
    ⟨c, .ok ⟨call, freshTokenId⟩, [call]⟩

/-- How a settled `fetch` promise looks to the caller: a response, a
transport failure, or the distinguished abort error (a `DOMException`
named AbortError). -/
inductive FetchOutcome where
  | ok : Nat → FetchOutcome
  | transportError : String → FetchOutcome
  | abortError : FetchOutcome
  deriving DecidableEq, Repr

/-- The `AbortSignal` token threaded into a dispatched request, when any. -/
def signalToken (init : JsObj) : Option Nat :=
  match jsGet init "signal" with
  | .token id => some id
  | _ => none

/-- Whether a dispatched call is affected by the given set of aborted
controllers: only a call whose own signal's controller was aborted. -/
def callAborted (abortedTokens : List Nat) (call : FetchCall) : Bool :=
  match signalToken call.init with
  | some id => abortedTokens.contains id
  | none => false

/-- Model of the platform contract of `fetch` with an `AbortSignal`: if the
signal's controller is aborted before the operation settles naturally, the
promise rejects with the abort error; aborting after settlement is a no-op,
so the outcome is the natural one. -/
def resolveFetch (natural : FetchOutcome) (abortedBeforeSettle : Bool) : FetchOutcome :=
  if abortedBeforeSettle then .abortError else natural

/-! ### Basic lemmas on the JavaScript object model -/

theorem jsGet_nil (k : String) : jsGet [] k = JsValue.undefined := rfl

theorem jsGet_cons (p : String × JsValue) (o : JsObj) (k : String) :
    jsGet (p :: o) k = if p.1 = k then p.2 else jsGet o k := by
  by_cases h : p.1 = k <;>
    simp [jsGet, List.find?_cons_of_pos, List.find?_cons_of_neg, h]

theorem objSet_of_not_mem (o : JsObj) (k : String) (v : JsValue)
    (h : ∀ p ∈ o, p.1 ≠ k) : objSet o k v = o ++ [(k, v)] := by
  unfold objSet
  rw [if_neg]
  simp only [List.any_eq_true, decide_eq_true_eq, not_exists]
  intro p
  by_cases hp : p ∈ o
  · simp [hp, h p hp]
  · simp [hp]

theorem jsGet_objSet_self (o : JsObj) (k : String) (v : JsValue) :
    jsGet (objSet o k v) k = v := by
  unfold objSet
  split
  case isTrue h =>
    induction o with
    | nil => simp at h
    | cons p rest ih =>
      by_cases hp : p.1 = k
      · simp [jsGet_cons, hp]
      · have h' : rest.any (fun q => q.1 = k) = true := by
          simpa [hp] using h
        simpa [jsGet_cons, hp] using ih h'
  case isFalse h =>
    induction o with
    | nil => simp [jsGet_cons]
    | cons p rest ih =>
      have hp : ¬ p.1 = k := by
        intro hk
        exact h (by simp [List.any_cons, hk])
      have h' : ¬ rest.any (fun q => q.1 = k) = true := by
        intro hr
        exact h (by simp [List.any_cons, hr])
      simpa [jsGet_cons, hp] using ih h'

theorem jsGet_map_set_ne (o : JsObj) (k : String) (v : JsValue) (k' : String)
    (h : k' ≠ k) :
    jsGet (o.map (fun p => if p.1 = k then (k, v) else p)) k' = jsGet o k' := by
  induction o with
  | nil => rfl
  | cons p rest ih =>
    by_cases hp : p.1 = k
    · simp [jsGet_cons, hp, Ne.symm h, ih]
    · simp [jsGet_cons, hp, ih]

theorem jsGet_append_single_ne (o : JsObj) (k : String) (v : JsValue)
    (k' : String) (h : k' ≠ k) : jsGet (o ++ [(k, v)]) k' = jsGet o k' := by
  induction o with
  | nil => simp [jsGet_cons, Ne.symm h, jsGet_nil]
  | cons p rest ih =>
    by_cases hp : p.1 = k' <;> simp [jsGet_cons, hp, ih]

theorem jsGet_objSet_ne (o : JsObj) (k : String) (v : JsValue) (k' : String)
    (h : k' ≠ k) : jsGet (objSet o k v) k' = jsGet o k' := by
  unfold objSet
  split
  case isTrue _ => exact jsGet_map_set_ne o k v k' h
  case isFalse _ => exact jsGet_append_single_ne o k v k' h

theorem foldl_objSet_append (fields : JsObj) : ∀ acc : JsObj,
    (∀ p ∈ fields, ∀ q ∈ acc, q.1 ≠ p.1) →
    (fields.map Prod.fst).Nodup →
    fields.foldl (fun a p => objSet a p.1 p.2) acc = acc ++ fields := by
  induction fields with
  | nil => intro acc _ _; simp
  | cons p rest ih =>
    intro acc hdisj hnd
    rw [List.map_cons, List.nodup_cons] at hnd
    rw [List.foldl_cons,
      objSet_of_not_mem acc p.1 p.2 (fun q hq => hdisj p (by simp) q hq), ih]
    · simp
    · intro r hr q hq
      rcases List.mem_append.1 hq with hq | hq
      · exact hdisj r (by simp [hr]) q hq
      · have hq' : q = (p.1, p.2) := by simpa using hq
        subst hq'
        intro hcontra
        exact hnd.1 (by simpa [← hcontra] using List.mem_map_of_mem Prod.fst hr)
    · exact hnd.2

theorem spreadInto_nil_obj (fields : JsObj)
    (hnd : (fields.map Prod.fst).Nodup) :
    spreadInto [] (JsValue.obj fields) = fields := by
  have h0 : spreadInto [] (JsValue.obj fields)
      = fields.foldl (fun acc p => objSet acc p.1 p.2) [] := rfl
  rw [h0, foldl_objSet_append fields [] (by simp) hnd]
  simp

theorem spreadInto_nil_headersInst (entries : List (String × String)) :
    spreadInto [] (JsValue.headersInst entries) = [] := rfl

theorem buildPayload_eq (printed : String) (v o : JsValue) :
    buildPayload printed v o =
      [("query", JsValue.str printed)]
        ++ (if v.truthy then [("variables", v)] else [])
        ++ (if o.truthy then [("operationName", o)] else []) := by
  by_cases hv : v.truthy <;> by_cases ho : o.truthy <;>
    simp only [buildPayload, hv, ho, if_true, if_false, Bool.false_eq_true] <;>
    rfl

/-! ### Lemmas about the composed request and payload -/

theorem buildRequest_signal (options : Option JsObj) (bodyText : String)
    (t : Nat) :
    jsGet (buildRequest options bodyText t) "signal" = JsValue.token t := by
  simp only [buildRequest]
  rw [jsGet_objSet_self]

theorem buildRequest_body (options : Option JsObj) (bodyText : String)
    (t : Nat) :
    jsGet (buildRequest options bodyText t) "body" = JsValue.str bodyText := by
  simp only [buildRequest]
  rw [jsGet_objSet_ne _ _ _ _ (by decide), jsGet_objSet_self]

theorem buildRequest_headers (options : Option JsObj) (bodyText : String)
    (t : Nat) :
    jsGet (buildRequest options bodyText t) "headers"
      = JsValue.obj (requestHeaders options) := by
  simp only [buildRequest]
  rw [jsGet_objSet_ne _ _ _ _ (by decide), jsGet_objSet_ne _ _ _ _ (by decide),
    jsGet_objSet_self]

theorem buildRequest_method (options : Option JsObj) (bodyText : String)
    (t : Nat) :
    jsGet (buildRequest options bodyText t) "method"
      = JsValue.str "POST" := by
  simp only [buildRequest]
  rw [jsGet_objSet_ne _ _ _ _ (by decide), jsGet_objSet_ne _ _ _ _ (by decide),
    jsGet_objSet_ne _ _ _ _ (by decide), jsGet_objSet_self]

theorem buildRequest_defaults (options : Option JsObj) (bodyText : String)
    (t : Nat) (k : String) (hm : k ≠ "method") (hh : k ≠ "headers")
    (hb : k ≠ "body") (hs : k ≠ "signal")
    (hnd : ∀ fields, options = some fields → (fields.map Prod.fst).Nodup) :
    jsGet (buildRequest options bodyText t) k = optGet options k := by
  simp only [buildRequest]
  rw [jsGet_objSet_ne _ _ _ _ hs, jsGet_objSet_ne _ _ _ _ hb,
    jsGet_objSet_ne _ _ _ _ hh, jsGet_objSet_ne _ _ _ _ hm]
  cases options with
  | none => rfl
  | some fields => rw [spreadInto_nil_obj fields (hnd fields rfl)]; rfl

theorem requestHeaders_contentType (options : Option JsObj) :
    jsGet (requestHeaders options) "Content-Type"
      = JsValue.str "application/json" := by
  unfold requestHeaders
  rw [jsGet_objSet_self]

theorem requestHeaders_default (options : Option JsObj) (hf : JsObj)
    (k : String) (hk : k ≠ "Content-Type")
    (hobj : optGet options "headers" = JsValue.obj hf)
    (hnd : (hf.map Prod.fst).Nodup) :
    jsGet (requestHeaders options) k = jsGet hf k := by
  unfold requestHeaders
  rw [jsGet_objSet_ne _ _ _ _ hk, hobj, spreadInto_nil_obj hf hnd]

theorem execute_ok (c : NanoQLClient) (p : ExecuteParams) (t : Nat)
    (printed : String) (h : p.document.printResult = some printed) :
    c.execute p t
      = ⟨c, .ok ⟨⟨c.url, buildRequest c.options
            (jsonStr (JsValue.obj (buildPayload printed p.vars p.operationName))) t⟩, t⟩,
          [⟨c.url, buildRequest c.options
            (jsonStr (JsValue.obj (buildPayload printed p.vars p.operationName))) t⟩]⟩ := by
  unfold NanoQLClient.execute
  rw [h]

theorem execute_printFailed (c : NanoQLClient) (p : ExecuteParams) (t : Nat)
    (h : p.document.printResult = none) :
    c.execute p t = ⟨c, .error .printFailed, []⟩ := by
  unfold NanoQLClient.execute
  rw [h]

theorem truthy_ne_undefined (v : JsValue) (h : v.truthy = true) :
    v ≠ JsValue.undefined := by
  intro he
  rw [he] at h
  exact Bool.false_ne_true h

theorem buildPayload_query (printed : String) (v o : JsValue) :
    jsGet (buildPayload printed v o) "query" = JsValue.str printed := by
  rw [buildPayload_eq]
  simp [jsGet_cons]

theorem buildPayload_keys (printed : String) (v o : JsValue) :
    (buildPayload printed v o).map Prod.fst
      = ["query"] ++ (if v.truthy then ["variables"] else [])
          ++ (if o.truthy then ["operationName"] else []) := by
  rw [buildPayload_eq]
  by_cases hv : v.truthy <;> by_cases ho : o.truthy <;> simp [hv, ho]

theorem buildPayload_vars_absent (printed : String) (v o : JsValue)
    (h : v.truthy = false) :
    (buildPayload printed v o).any (fun q => q.1 = "variables") = false := by
  rw [buildPayload_eq]
  by_cases ho : o.truthy <;> simp [h, ho]

theorem buildPayload_opName_absent (printed : String) (v o : JsValue)
    (h : o.truthy = false) :
    (buildPayload printed v o).any (fun q => q.1 = "operationName") = false := by
  rw [buildPayload_eq]
  by_cases hv : v.truthy <;> simp [h, hv]

theorem buildPayload_vars_present (printed : String) (v o : JsValue)
    (h : (buildPayload printed v o).any (fun q => q.1 = "variables") = true) :
    v.truthy = true ∧ jsGet (buildPayload printed v o) "variables" = v := by
  by_cases hv : v.truthy
  · refine ⟨hv, ?_⟩
    rw [buildPayload_eq]
    by_cases ho : o.truthy <;> simp [hv, ho, jsGet_cons]
  · rw [Bool.not_eq_true] at hv
    rw [buildPayload_vars_absent printed v o hv] at h
    exact absurd h (by decide)

theorem buildPayload_opName_present (printed : String) (v o : JsValue)
    (h : (buildPayload printed v o).any (fun q => q.1 = "operationName") = true) :
    o.truthy = true
      ∧ jsGet (buildPayload printed v o) "operationName" = o := by
  by_cases ho : o.truthy
  · refine ⟨ho, ?_⟩
    rw [buildPayload_eq]
    by_cases hv : v.truthy <;> simp [hv, ho, jsGet_cons]
  · rw [Bool.not_eq_true] at ho
    rw [buildPayload_opName_absent printed v o ho] at h
    exact absurd h (by decide)

/-! ### Claim theorems -/

/-- C1: For every execute call, the wire payload is the object stringified
into the request body; its "query" field equals the canonical serialization
of the supplied document; the "variables" field is present (holding the
supplied value) only when variables were provided, and "operationName"
(holding the supplied value) only when an operation name was provided; an
absent optional input's key is omitted entirely from the payload; the
payload's field order is query, then variables, then operationName. -/
theorem execute_wire_payload (c : NanoQLClient) (p : ExecuteParams) (t : Nat)
    (printed : String) (h : p.document.printResult = some printed) :
    ∃ call : FetchCall,
      (c.execute p t).fetchCalls = [call] ∧
      jsGet call.init "body" = JsValue.str (jsonStr (JsValue.obj
        (buildPayload printed p.vars p.operationName))) ∧
      jsGet (buildPayload printed p.vars p.operationName) "query"
        = JsValue.str printed ∧
      ((buildPayload printed p.vars p.operationName).any
          (fun q => q.1 = "variables") = true →
        p.vars ≠ JsValue.undefined ∧
          jsGet (buildPayload printed p.vars p.operationName) "variables"
            = p.vars) ∧
      ((buildPayload printed p.vars p.operationName).any
          (fun q => q.1 = "operationName") = true →
        p.operationName ≠ JsValue.undefined ∧
          jsGet (buildPayload printed p.vars p.operationName) "operationName"
            = p.operationName) ∧
      (p.vars = JsValue.undefined →
        (buildPayload printed p.vars p.operationName).any
          (fun q => q.1 = "variables") = false) ∧
      (p.operationName = JsValue.undefined →
        (buildPayload printed p.vars p.operationName).any
          (fun q => q.1 = "operationName") = false) ∧
      (buildPayload printed p.vars p.operationName).map Prod.fst
        = ["query"] ++ (if p.vars.truthy then ["variables"] else [])
            ++ (if p.operationName.truthy then ["operationName"] else []) := by
  refine ⟨⟨c.url, buildRequest c.options (jsonStr (JsValue.obj
    (buildPayload printed p.vars p.operationName))) t⟩,
    ?_, ?_, ?_, ?_, ?_, ?_, ?_, ?_⟩
  · rw [execute_ok c p t printed h]
  · exact buildRequest_body _ _ _
  · exact buildPayload_query _ _ _
  · intro ha
    rcases buildPayload_vars_present _ _ _ ha with ⟨hv, hg⟩
    exact ⟨truthy_ne_undefined _ hv, hg⟩
  · intro ha
    rcases buildPayload_opName_present _ _ _ ha with ⟨ho, hg⟩
    exact ⟨truthy_ne_undefined _ ho, hg⟩
  · intro hu
    exact buildPayload_vars_absent _ _ _ (by rw [hu]; rfl)
  · intro hu
    exact buildPayload_opName_absent _ _ _ (by rw [hu]; rfl)
  · exact buildPayload_keys _ _ _

/-- C1 witness: a concrete call with variables and an operation name. -/
theorem execute_wire_payload_witness :
    (⟨⟨some "query GetUser"⟩, JsValue.obj [("id", JsValue.str "123")],
        JsValue.str "GetUser"⟩ : ExecuteParams).document.printResult
      = some "query GetUser" ∧
    ∃ call : FetchCall,
      ((⟨"https://example.com/graphql", none⟩ : NanoQLClient).execute
        ⟨⟨some "query GetUser"⟩, JsValue.obj [("id", JsValue.str "123")],
          JsValue.str "GetUser"⟩ 0).fetchCalls = [call] ∧
      jsGet call.init "body" = JsValue.str (jsonStr (JsValue.obj
        (buildPayload "query GetUser" (JsValue.obj [("id", JsValue.str "123")])
          (JsValue.str "GetUser")))) ∧
      jsGet (buildPayload "query GetUser"
          (JsValue.obj [("id", JsValue.str "123")]) (JsValue.str "GetUser"))
          "query" = JsValue.str "query GetUser" ∧
      ((buildPayload "query GetUser" (JsValue.obj [("id", JsValue.str "123")])
          (JsValue.str "GetUser")).any (fun q => q.1 = "variables") = true →
        JsValue.obj [("id", JsValue.str "123")] ≠ JsValue.undefined ∧
          jsGet (buildPayload "query GetUser"
            (JsValue.obj [("id", JsValue.str "123")]) (JsValue.str "GetUser"))
            "variables" = JsValue.obj [("id", JsValue.str "123")]) ∧
      ((buildPayload "query GetUser" (JsValue.obj [("id", JsValue.str "123")])
          (JsValue.str "GetUser")).any (fun q => q.1 = "operationName") = true →
        JsValue.str "GetUser" ≠ JsValue.undefined ∧
          jsGet (buildPayload "query GetUser"
            (JsValue.obj [("id", JsValue.str "123")]) (JsValue.str "GetUser"))
            "operationName" = JsValue.str "GetUser") ∧
      (JsValue.obj [("id", JsValue.str "123")] = JsValue.undefined →
        (buildPayload "query GetUser" (JsValue.obj [("id", JsValue.str "123")])
          (JsValue.str "GetUser")).any (fun q => q.1 = "variables") = false) ∧
      (JsValue.str "GetUser" = JsValue.undefined →
        (buildPayload "query GetUser" (JsValue.obj [("id", JsValue.str "123")])
          (JsValue.str "GetUser")).any
            (fun q => q.1 = "operationName") = false) ∧
      (buildPayload "query GetUser" (JsValue.obj [("id", JsValue.str "123")])
          (JsValue.str "GetUser")).map Prod.fst
        = ["query"]
            ++ (if (JsValue.obj [("id", JsValue.str "123")]).truthy
                then ["variables"] else [])
            ++ (if (JsValue.str "GetUser").truthy
                then ["operationName"] else []) :=
  ⟨rfl, execute_wire_payload ⟨"https://example.com/graphql", none⟩
    ⟨⟨some "query GetUser"⟩, JsValue.obj [("id", JsValue.str "123")],
      JsValue.str "GetUser"⟩ 0 "query GetUser" rfl⟩

/-- C2: For every execute call, the dispatched request options are the
shallow merge of the default options with the fixed method, headers, body
and signal entries, later entries winning on key collision; every other
default-options key is carried through unchanged; the headers entry merges
one level deeper, the fixed Content-Type overlaid key-by-key onto the
default headers (when they are a plain object). -/
theorem execute_request_merge (c : NanoQLClient) (p : ExecuteParams) (t : Nat)
    (printed : String) (h : p.document.printResult = some printed)
    (hnd : ∀ fields, c.options = some fields → (fields.map Prod.fst).Nodup) :
    ∃ call : FetchCall,
      (c.execute p t).fetchCalls = [call] ∧
      call.url = c.url ∧
      jsGet call.init "method" = JsValue.str "POST" ∧
      jsGet call.init "body" = JsValue.str (jsonStr (JsValue.obj
        (buildPayload printed p.vars p.operationName))) ∧
      jsGet call.init "signal" = JsValue.token t ∧
      (∀ k, k ≠ "method" → k ≠ "headers" → k ≠ "body" → k ≠ "signal" →
        jsGet call.init k = optGet c.options k) ∧
      jsGet call.init "headers" = JsValue.obj (requestHeaders c.options) ∧
      jsGet (requestHeaders c.options) "Content-Type"
        = JsValue.str "application/json" ∧
      (∀ hf : JsObj, optGet c.options "headers" = JsValue.obj hf →
        (hf.map Prod.fst).Nodup →
        ∀ k, k ≠ "Content-Type" →
          jsGet (requestHeaders c.options) k = jsGet hf k) := by
  refine ⟨⟨c.url, buildRequest c.options (jsonStr (JsValue.obj
    (buildPayload printed p.vars p.operationName))) t⟩,
    ?_, rfl, ?_, ?_, ?_, ?_, ?_, ?_, ?_⟩
  · rw [execute_ok c p t printed h]
  · exact buildRequest_method _ _ _
  · exact buildRequest_body _ _ _
  · exact buildRequest_signal _ _ _
  · intro k hm hh hb hs
    exact buildRequest_defaults _ _ _ k hm hh hb hs hnd
  · exact buildRequest_headers _ _ _
  · exact requestHeaders_contentType _
  · intro hf hobj hfnd k hk
    exact requestHeaders_default _ hf k hk hobj hfnd

/-- C3: A document whose serialization fails makes execute fail
synchronously with the serialization error, and zero transport calls are
made for that call. -/
theorem execute_serialization_failure (c : NanoQLClient) (p : ExecuteParams)
    (t : Nat) (h : p.document.printResult = none) :
    (c.execute p t).result = Except.error SerializationError.printFailed ∧
    (c.execute p t).fetchCalls = [] := by
  rw [execute_printFailed c p t h]
  exact ⟨rfl, rfl⟩

/-- C3 witness: a malformed document. -/
theorem execute_serialization_failure_witness :
    (⟨⟨none⟩, JsValue.undefined, JsValue.undefined⟩
        : ExecuteParams).document.printResult = none ∧
    ((⟨"https://example.com/graphql", none⟩ : NanoQLClient).execute
        ⟨⟨none⟩, JsValue.undefined, JsValue.undefined⟩ 0).result
      = Except.error SerializationError.printFailed ∧
    ((⟨"https://example.com/graphql", none⟩ : NanoQLClient).execute
        ⟨⟨none⟩, JsValue.undefined, JsValue.undefined⟩ 0).fetchCalls = [] :=
  ⟨rfl, execute_serialization_failure ⟨"https://example.com/graphql", none⟩
    ⟨⟨none⟩, JsValue.undefined, JsValue.undefined⟩ 0 rfl⟩

/-- C4: The returned abort capability signals exactly the controller whose
signal was threaded into the dispatched request; aborting it before the
transport settles makes the pending response fail with the distinguished
abort error, which differs from every success and every other transport
failure; once the operation has settled, aborting changes nothing. -/
theorem execute_abort_cancellation (c : NanoQLClient) (p : ExecuteParams)
    (t : Nat) (printed : String) (h : p.document.printResult = some printed)
    (hd : ExecuteHandle) (hres : (c.execute p t).result = Except.ok hd) :
    signalToken hd.response.init = some hd.abortTokenId ∧
    (∀ natural : FetchOutcome,
      resolveFetch natural (callAborted [hd.abortTokenId] hd.response)
        = FetchOutcome.abortError) ∧
    (∀ status : Nat, FetchOutcome.abortError ≠ FetchOutcome.ok status) ∧
    (∀ msg : String,
      FetchOutcome.abortError ≠ FetchOutcome.transportError msg) ∧
    (∀ natural : FetchOutcome, resolveFetch natural false = natural) := by
  rw [execute_ok c p t printed h] at hres
  have hd_eq : hd = ⟨⟨c.url, buildRequest c.options (jsonStr (JsValue.obj
      (buildPayload printed p.vars p.operationName))) t⟩, t⟩ :=
    (Except.ok.inj hres).symm
  subst hd_eq
  refine ⟨?_, ?_, ?_, ?_, ?_⟩
  · show signalToken (buildRequest _ _ _) = _
    unfold signalToken
    rw [buildRequest_signal]
  · intro natural
    have habort : callAborted [t] (⟨c.url, buildRequest c.options
        (jsonStr (JsValue.obj (buildPayload printed p.vars p.operationName)))
        t⟩ : FetchCall) = true := by
      unfold callAborted signalToken
      rw [buildRequest_signal]
      simp
    rw [habort]
    rfl
  · intro status heq
    exact FetchOutcome.noConfusion heq
  · intro msg heq
    exact FetchOutcome.noConfusion heq
  · intro natural
    rfl

/-- C5: Construction from endpoint text fails exactly when the text cannot
be parsed into a valid address — in which case no client instance is
produced — and succeeds, storing the parsed endpoint and the default
options, for every parseable text. -/
theorem construct_endpoint_validation (impl : URLImpl) (s : String)
    (opts : Option JsObj) :
    (impl.parse s = none →
      NanoQLClient.construct impl (UrlArg.text s) opts = none) ∧
    (∀ n, impl.parse s = some n →
      NanoQLClient.construct impl (UrlArg.text s) opts = some ⟨n, opts⟩) := by
  have h0 : NanoQLClient.construct impl (UrlArg.text s) opts
      = Option.map (fun n => (⟨n, opts⟩ : NanoQLClient)) (impl.parse s) := rfl
  constructor
  · intro hp
    rw [h0, hp]
    rfl
  · intro n hp
    rw [h0, hp]
    rfl

/-- A sample model of the platform URL parser, used to instantiate the
constructor theorems on concrete inputs: it accepts exactly the example
endpoint. -/
def demoURLImpl : URLImpl :=
  ⟨fun s => if s = "https://example.com/graphql"
    then some "https://example.com/graphql" else none⟩

/-- C5 witness: unparseable text yields no instance; parseable text yields
the client. -/
theorem construct_endpoint_validation_witness :
    NanoQLClient.construct demoURLImpl (UrlArg.text "not a url") none = none ∧
    NanoQLClient.construct demoURLImpl
        (UrlArg.text "https://example.com/graphql") none
      = some ⟨"https://example.com/graphql", none⟩ :=
  ⟨(construct_endpoint_validation demoURLImpl "not a url" none).1 rfl,
    (construct_endpoint_validation demoURLImpl "https://example.com/graphql"
      none).2 "https://example.com/graphql" rfl⟩

/-- C6: For a constructed instance, the url accessor returns the normalized
endpoint text — the accessor is a pure projection of the immutable stored
URL, so repeated calls return this identical string — and the options
accessor returns exactly the DefaultOptions bag passed at construction
(absent when none was given). -/
theorem accessors_url_options (impl : URLImpl) (s n : String)
    (opts : Option JsObj) (cl : NanoQLClient)
    (hp : impl.parse s = some n)
    (hc : NanoQLClient.construct impl (UrlArg.text s) opts = some cl) :
    cl.url = n ∧ cl.options = opts := by
  have h0 : NanoQLClient.construct impl (UrlArg.text s) opts
      = Option.map (fun m => (⟨m, opts⟩ : NanoQLClient)) (impl.parse s) := rfl
  rw [h0, hp] at hc
  cases Option.some.inj hc
  exact ⟨rfl, rfl⟩

/-- C6 witness: the example endpoint with no default options. -/
theorem accessors_url_options_witness :
    demoURLImpl.parse "https://example.com/graphql"
      = some "https://example.com/graphql" ∧
    (⟨"https://example.com/graphql", none⟩ : NanoQLClient).url
      = "https://example.com/graphql" ∧
    (⟨"https://example.com/graphql", none⟩ : NanoQLClient).options = none :=
  ⟨rfl, accessors_url_options demoURLImpl "https://example.com/graphql"
    "https://example.com/graphql" none ⟨"https://example.com/graphql", none⟩
    rfl rfl⟩

/-- C7: execute performs no state mutation on the executor instance — the
stored endpoint and stored default options are unchanged after the call —
and it performs exactly one outbound network operation when the document
serializes (zero when serialization fails), with no retries. -/
theorem execute_no_mutation (c : NanoQLClient) (p : ExecuteParams) (t : Nat) :
    (c.execute p t).client = c ∧
    (c.execute p t).fetchCalls.length
      = match p.document.printResult with
        | some _ => 1
        | none => 0 := by
  cases hp : p.document.printResult with
  | none => rw [execute_printFailed c p t hp]; exact ⟨rfl, rfl⟩
  | some printed => rw [execute_ok c p t printed hp]; exact ⟨rfl, rfl⟩

/-- C8: Each execute call produces exactly one request, one freshly created
cancellation token and one response handle; two calls with distinct fresh
tokens own distinct tokens, aborting one call's token never affects the
other call's outcome, and neither call writes the shared executor state. -/
theorem execute_call_isolation (c : NanoQLClient) (p1 p2 : ExecuteParams)
    (t1 t2 : Nat) (printed1 printed2 : String)
    (h1 : p1.document.printResult = some printed1)
    (h2 : p2.document.printResult = some printed2)
    (hne : t1 ≠ t2) (hd1 hd2 : ExecuteHandle)
    (hres1 : (c.execute p1 t1).result = Except.ok hd1)
    (hres2 : (c.execute p2 t2).result = Except.ok hd2) :
    (c.execute p1 t1).fetchCalls.length = 1 ∧
    (c.execute p2 t2).fetchCalls.length = 1 ∧
    hd1.abortTokenId = t1 ∧
    hd2.abortTokenId = t2 ∧
    hd1.abortTokenId ≠ hd2.abortTokenId ∧
    callAborted [hd1.abortTokenId] hd2.response = false ∧
    (∀ natural : FetchOutcome, resolveFetch natural
      (callAborted [hd1.abortTokenId] hd2.response) = natural) ∧
    (c.execute p1 t1).client = c ∧
    (c.execute p2 t2).client = c := by
  rw [execute_ok c p1 t1 printed1 h1] at hres1
  rw [execute_ok c p2 t2 printed2 h2] at hres2
  have e1 := (Except.ok.inj hres1).symm
  have e2 := (Except.ok.inj hres2).symm
  subst e1
  subst e2
  have habort : callAborted [t1] (⟨c.url, buildRequest c.options
      (jsonStr (JsValue.obj (buildPayload printed2 p2.vars p2.operationName)))
      t2⟩ : FetchCall) = false := by
    unfold callAborted signalToken
    rw [buildRequest_signal]
    simp [List.contains]
    omega
  refine ⟨?_, ?_, rfl, rfl, hne, habort, ?_, ?_, ?_⟩
  · rw [execute_ok c p1 t1 printed1 h1]
    rfl
  · rw [execute_ok c p2 t2 printed2 h2]
    rfl
  · intro natural
    rw [habort]
    rfl
  · rw [execute_ok c p1 t1 printed1 h1]
  · rw [execute_ok c p2 t2 printed2 h2]

/-- C9: Optional payload fields are included by a truthiness test, not a
presence test: a supplied empty-string operationName is omitted from the
payload, a supplied falsy variables value is omitted, and such a call's
dispatched request is indistinguishable on the wire from one with both
inputs absent. -/
theorem execute_falsy_omission (c : NanoQLClient) (p : ExecuteParams)
    (t : Nat) (printed : String) (h : p.document.printResult = some printed)
    (hv : p.vars.truthy = false) (ho : p.operationName = JsValue.str "") :
    (buildPayload printed p.vars p.operationName).any
      (fun q => q.1 = "operationName") = false ∧
    (buildPayload printed p.vars p.operationName).any
      (fun q => q.1 = "variables") = false ∧
    buildPayload printed p.vars p.operationName
      = [("query", JsValue.str printed)] ∧
    (c.execute p t).fetchCalls
      = (c.execute ⟨p.document, JsValue.undefined, JsValue.undefined⟩
          t).fetchCalls := by
  have ho' : p.operationName.truthy = false := by rw [ho]; rfl
  have hp1 : buildPayload printed p.vars p.operationName
      = [("query", JsValue.str printed)] := by
    rw [buildPayload_eq]
    simp [hv, ho']
  have hp2 : buildPayload printed JsValue.undefined JsValue.undefined
      = [("query", JsValue.str printed)] := by
    rw [buildPayload_eq]
    simp [JsValue.truthy]
  refine ⟨buildPayload_opName_absent _ _ _ ho',
    buildPayload_vars_absent _ _ _ hv, hp1, ?_⟩
  rw [execute_ok c p t printed h,
    execute_ok c ⟨p.document, JsValue.undefined, JsValue.undefined⟩ t printed h]
  simp only []
  rw [hp1]
  simp [hp2]

/-- C10: The header-merge guarantee needs DefaultOptions.headers to be a
plain object — default headers given as a Headers instance contribute no
entries to the dispatched header set (only the fixed Content-Type is
present), and default headers given as an array of name/value pairs are
copied under their array indices, not under their header names. -/
theorem execute_headers_nonplain (u : String)
    (entries : List (String × String)) (p : ExecuteParams) (t : Nat)
    (printed : String) (h : p.document.printResult = some printed) :
    (∀ call ∈ (NanoQLClient.execute
        ⟨u, some [("headers", JsValue.headersInst entries)]⟩ p t).fetchCalls,
      jsGet call.init "headers"
        = JsValue.obj [("Content-Type", JsValue.str "application/json")]) ∧
    (∀ call ∈ (NanoQLClient.execute
        ⟨u, some [("headers", JsValue.arr [JsValue.arr
          [JsValue.str "Authorization",
            JsValue.str "Bearer token"]])]⟩ p t).fetchCalls,
      jsGet call.init "headers"
        = JsValue.obj [("0", JsValue.arr [JsValue.str "Authorization",
            JsValue.str "Bearer token"]),
          ("Content-Type", JsValue.str "application/json")]) ∧
    ([("0", JsValue.arr [JsValue.str "Authorization",
        JsValue.str "Bearer token"]),
      ("Content-Type", JsValue.str "application/json")] : JsObj).any
      (fun q => q.1 = "Authorization") = false := by
  refine ⟨?_, ?_, by rfl⟩
  · intro call hc
    rw [execute_ok ⟨u, some [("headers", JsValue.headersInst entries)]⟩
      p t printed h] at hc
    simp only [List.mem_singleton] at hc
    subst hc
    rw [buildRequest_headers]
    rfl
  · intro call hc
    rw [execute_ok ⟨u, some [("headers", JsValue.arr [JsValue.arr
      [JsValue.str "Authorization", JsValue.str "Bearer token"]])]⟩
      p t printed h] at hc
    simp only [List.mem_singleton] at hc
    subst hc
    rw [buildRequest_headers]
    rfl

/-! ### Concrete instances for the remaining witnesses -/

/-- The default options of the spec's merge example: an Authorization
header and a cache mode. -/
def mergeDemoOptions : JsObj :=
  [("headers", JsValue.obj [("Authorization", JsValue.str "Bearer token")]),
    ("cache", JsValue.str "no-store")]

/-- A client constructed with the merge example's default options. -/
def mergeDemoClient : NanoQLClient :=
  ⟨"https://example.com/graphql", some mergeDemoOptions⟩

/-- A plain query call with no variables and no operation name. -/
def mergeDemoParams : ExecuteParams :=
  ⟨⟨some "query ping"⟩, JsValue.undefined, JsValue.undefined⟩

/-- C2 witness: with the example default options, the dispatched request
carries cache no-store, method POST, and headers holding both the fixed
Content-Type and the preserved Authorization entry. -/
theorem execute_request_merge_witness :
    ∃ call : FetchCall,
      (mergeDemoClient.execute mergeDemoParams 0).fetchCalls = [call] ∧
      jsGet call.init "cache" = JsValue.str "no-store" ∧
      jsGet call.init "method" = JsValue.str "POST" ∧
      jsGet (requestHeaders mergeDemoClient.options) "Content-Type"
        = JsValue.str "application/json" ∧
      jsGet (requestHeaders mergeDemoClient.options) "Authorization"
        = JsValue.str "Bearer token" := by
  obtain ⟨call, hcalls, hurl, hmethod, hbody, hsignal, hrest, hheaders, hct,
      hover⟩ :=
    execute_request_merge mergeDemoClient mergeDemoParams 0 "query ping" rfl
      (fun fields hf => by
        rw [← Option.some.inj hf]
        decide)
  refine ⟨call, hcalls, ?_, hmethod, hct, ?_⟩
  · rw [hrest "cache" (by decide) (by decide) (by decide) (by decide)]
    rfl
  · rw [hover [("Authorization", JsValue.str "Bearer token")] rfl (by decide)
      "Authorization" (by decide)]
    rfl

/-- A client with no default options for the cancellation witness. -/
def abortDemoClient : NanoQLClient := ⟨"https://example.com/graphql", none⟩

/-- A long-running query call. -/
def abortDemoParams : ExecuteParams :=
  ⟨⟨some "query wait"⟩, JsValue.undefined, JsValue.undefined⟩

/-- The handle `execute` returns for the cancellation witness call. -/
def abortDemoHandle : ExecuteHandle :=
  ⟨⟨abortDemoClient.url, buildRequest abortDemoClient.options
    (jsonStr (JsValue.obj (buildPayload "query wait" JsValue.undefined
      JsValue.undefined))) 0⟩, 0⟩

/-- C4 witness: aborting the in-flight demo call turns its outcome into the
distinguished abort error; after settlement the abort changes nothing. -/
theorem execute_abort_cancellation_witness :
    (abortDemoClient.execute abortDemoParams 0).result
        = Except.ok abortDemoHandle ∧
    signalToken abortDemoHandle.response.init
        = some abortDemoHandle.abortTokenId ∧
    resolveFetch (FetchOutcome.ok 200)
        (callAborted [abortDemoHandle.abortTokenId] abortDemoHandle.response)
      = FetchOutcome.abortError ∧
    FetchOutcome.abortError ≠ FetchOutcome.ok 200 ∧
    FetchOutcome.abortError
        ≠ FetchOutcome.transportError "connection refused" ∧
    resolveFetch (FetchOutcome.ok 200) false = FetchOutcome.ok 200 := by
  obtain ⟨ha, hb, hc, hd, he⟩ :=
    execute_abort_cancellation abortDemoClient abortDemoParams 0 "query wait"
      rfl abortDemoHandle rfl
  exact ⟨rfl, ha, hb (FetchOutcome.ok 200), hc 200, hd "connection refused",
    he (FetchOutcome.ok 200)⟩

/-- A shared client for the isolation witness. -/
def isoClient : NanoQLClient := ⟨"https://example.com/graphql", none⟩

/-- First concurrent call. -/
def isoParams1 : ExecuteParams :=
  ⟨⟨some "query a"⟩, JsValue.undefined, JsValue.undefined⟩

/-- Second concurrent call. -/
def isoParams2 : ExecuteParams :=
  ⟨⟨some "query b"⟩, JsValue.undefined, JsValue.undefined⟩

/-- The handle of the first concurrent call (token 0). -/
def isoHandle1 : ExecuteHandle :=
  ⟨⟨isoClient.url, buildRequest isoClient.options
    (jsonStr (JsValue.obj (buildPayload "query a" JsValue.undefined
      JsValue.undefined))) 0⟩, 0⟩

/-- The handle of the second concurrent call (token 1). -/
def isoHandle2 : ExecuteHandle :=
  ⟨⟨isoClient.url, buildRequest isoClient.options
    (jsonStr (JsValue.obj (buildPayload "query b" JsValue.undefined
      JsValue.undefined))) 1⟩, 1⟩

/-- C8 witness: two concurrent calls on the same client, with fresh tokens
0 and 1. -/
theorem execute_call_isolation_witness :
    (0 : Nat) ≠ 1 ∧
    ((isoClient.execute isoParams1 0).fetchCalls.length = 1 ∧
      (isoClient.execute isoParams2 1).fetchCalls.length = 1 ∧
      isoHandle1.abortTokenId = 0 ∧
      isoHandle2.abortTokenId = 1 ∧
      isoHandle1.abortTokenId ≠ isoHandle2.abortTokenId ∧
      callAborted [isoHandle1.abortTokenId] isoHandle2.response = false ∧
      (∀ natural : FetchOutcome, resolveFetch natural
        (callAborted [isoHandle1.abortTokenId] isoHandle2.response)
          = natural) ∧
      (isoClient.execute isoParams1 0).client = isoClient ∧
      (isoClient.execute isoParams2 1).client = isoClient) :=
  ⟨by decide, execute_call_isolation isoClient isoParams1 isoParams2 0 1
    "query a" "query b" rfl rfl (by decide) isoHandle1 isoHandle2 rfl rfl⟩

/-- A call whose variables value is supplied but falsy (null) and whose
operation name is supplied as the empty string. -/
def falsyDemoParams : ExecuteParams :=
  ⟨⟨some "query hello"⟩, JsValue.null, JsValue.str ""⟩

/-- C9 witness: the supplied falsy inputs are omitted from the payload, and
the dispatched request equals that of a call with both inputs absent. -/
theorem execute_falsy_omission_witness :
    falsyDemoParams.vars.truthy = false ∧
    falsyDemoParams.operationName = JsValue.str "" ∧
    ((buildPayload "query hello" falsyDemoParams.vars
        falsyDemoParams.operationName).any
        (fun q => q.1 = "operationName") = false ∧
      (buildPayload "query hello" falsyDemoParams.vars
        falsyDemoParams.operationName).any
        (fun q => q.1 = "variables") = false ∧
      buildPayload "query hello" falsyDemoParams.vars
          falsyDemoParams.operationName
        = [("query", JsValue.str "query hello")] ∧
      ((⟨"https://example.com/graphql", none⟩ : NanoQLClient).execute
          falsyDemoParams 0).fetchCalls
        = ((⟨"https://example.com/graphql", none⟩ : NanoQLClient).execute
            ⟨falsyDemoParams.document, JsValue.undefined, JsValue.undefined⟩
            0).fetchCalls) :=
  ⟨rfl, rfl, execute_falsy_omission ⟨"https://example.com/graphql", none⟩
    falsyDemoParams 0 "query hello" rfl rfl rfl⟩

/-- C10 witness: default headers supplied as a Headers instance, and as an
array of name/value pairs, with a concrete Authorization entry. -/
theorem execute_headers_nonplain_witness :
    (⟨⟨some "query hi"⟩, JsValue.undefined, JsValue.undefined⟩
        : ExecuteParams).document.printResult = some "query hi" ∧
    ((∀ call ∈ (NanoQLClient.execute ⟨"https://example.com/graphql",
        some [("headers", JsValue.headersInst
          [("Authorization", "Bearer token")])]⟩
        ⟨⟨some "query hi"⟩, JsValue.undefined, JsValue.undefined⟩
        0).fetchCalls,
      jsGet call.init "headers"
        = JsValue.obj [("Content-Type", JsValue.str "application/json")]) ∧
    (∀ call ∈ (NanoQLClient.execute ⟨"https://example.com/graphql",
        some [("headers", JsValue.arr [JsValue.arr
          [JsValue.str "Authorization", JsValue.str "Bearer token"]])]⟩
        ⟨⟨some "query hi"⟩, JsValue.undefined, JsValue.undefined⟩
        0).fetchCalls,
      jsGet call.init "headers"
        = JsValue.obj [("0", JsValue.arr [JsValue.str "Authorization",
            JsValue.str "Bearer token"]),
          ("Content-Type", JsValue.str "application/json")]) ∧
    ([("0", JsValue.arr [JsValue.str "Authorization",
        JsValue.str "Bearer token"]),
      ("Content-Type", JsValue.str "application/json")] : JsObj).any
      (fun q => q.1 = "Authorization") = false) :=
  ⟨rfl, execute_headers_nonplain "https://example.com/graphql"
    [("Authorization", "Bearer token")]
    ⟨⟨some "query hi"⟩, JsValue.undefined, JsValue.undefined⟩ 0
    "query hi" rfl⟩

end NanoFetchQL
